import Mathlib

set_option autoImplicit false

/-!
Shallow embedding of the Harbor UI authentication core:
the controllers in src/ui/controllers/base.go (Login, UserExists,
SendResetEmail, ResetPassword, Oauth, isUserResetable, createUser) and the
dao fragment (Register, UserExists).  Store operations that the controllers
call but whose code is not part of the covered sources (dao.GetUser,
dao.UpdateUserResetUUID, dao.ResetUserPassword, dao.OnBoardUser, auth.Login)
are modelled from the specification and carry a doc comment saying so.
External collaborators (the salted-hash function utils.Encrypt, the random
string generator utils.GenerateRandomString, the configured auth mode, the
email regexp, template and SMTP dispatch, the OAuth code exchange) enter the
operations as explicit parameters.
-/

/-- User record, after models.User as used by the covered code: identity
fields, credential state (password hash and salt), reset token and the admin
flag. -/
structure User where
  userID : Nat
  username : String
  email : String
  realname : String
  password : String
  salt : String
  resetUUID : String
  hasAdminRole : Nat
  comment : String
deriving DecidableEq, Repr

/-- Zero value of models.User, as produced by the Go literal models.User{}. -/
def User.empty : User :=
  { userID := 0, username := "", email := "", realname := "", password := "",
    salt := "", resetUUID := "", hasAdminRole := 0, comment := "" }

/-- Durable user store: the rows of the user table plus the next
store-assigned id (LastInsertId source). -/
structure DB where
  users : List User
  nextID : Nat
deriving DecidableEq, Repr

/-- Caller-visible result of one controller request: an abort carrying the
HTTP status and body written by cc.CustomAbort, a served JSON boolean, an
established session holding the three session fields set by cc.SetSession, or
a plain success. -/
inductive Outcome where
  | abort (status : Nat) (msg : String)
  | json (exist : Bool)
  | session (userId : Nat) (username : String) (isSysAdmin : Bool)
  | ok
deriving DecidableEq, Repr

/-- Status of an outcome: the HTTP status when the request aborted. -/
def Outcome.statusOf : Outcome → Option Nat
  | Outcome.abort s _ => some s
  | _ => none

/-- dao.Register (dao source, lines 26-48): inserts one row whose password
column is Encrypt(plaintext, salt) and whose salt column is the fresh salt
produced by utils.GenerateRandomString — both passed here as explicit
parameters encrypt and salt — and returns the store-assigned id.  The
store-level error path (a failing prepare or exec returns the error without
inserting) is not modelled: the model is the successful insert. -/
def dao.Register (encrypt : String → String → String) (salt : String)
    (db : DB) (user : User) : DB × Nat :=
  let stored : User :=
    { user with userID := db.nextID, password := encrypt user.password salt,
                salt := salt }
  ({ users := db.users ++ [stored], nextID := db.nextID + 1 }, db.nextID)

/-- dao.UserExists (dao source, lines 51-84): rejects a query whose username,
email and realname are all blank; otherwise filters the user table by the
field named by target (an unrecognised target leaves the SQL filter at the
always-true 1=1, matching every row). -/
def dao.UserExists (db : DB) (user : User) (target : String) :
    Except String Bool :=
  if user.username == "" && user.email == "" && user.realname == "" then
    Except.error "user name, email, and realname are blank"
  else
    let rowMatch : User → Bool :=
      if target == "username" then fun u => u.username == user.username
      else if target == "email" then fun u => u.email == user.email
      else if target == "realname" then fun u => u.realname == user.realname
      else fun _ => true
    Except.ok (db.users.any rowMatch)

/-- Modelled from the spec: the Credential Store operation
lookup(criteria) -> User? (dao.GetUser, whose code is not among the covered
sources).  Returns the first user agreeing with every non-empty field of the
criteria; the controllers query it by email or by resetUUID only. -/
def dao.GetUser (db : DB) (q : User) : Option User :=
  db.users.find? fun u =>
    (q.username == "" || u.username == q.username) &&
    (q.email == "" || u.email == q.email) &&
    (q.resetUUID == "" || u.resetUUID == q.resetUUID)

/-- Modelled from the spec: the Credential Store operation
setResetToken (dao.UpdateUserResetUUID, whose code is not among the covered
sources): stores the supplied token as the resetUUID of the user matched by
the email of the criteria, a new request overwriting any old token. -/
def dao.UpdateUserResetUUID (db : DB) (q : User) : DB :=
  { db with
    users := db.users.map fun u =>
      if u.email == q.email then { u with resetUUID := q.resetUUID } else u }

/-- Modelled from the spec: the Credential Store operation
resetPassword(user) (dao.ResetUserPassword, whose code is not among the
covered sources): re-salts and re-hashes the supplied plaintext secret,
persists it for the matching user and clears the reset token, as a single
store mutation. -/
def dao.ResetUserPassword (encrypt : String → String → String)
    (newSalt : String) (db : DB) (u : User) : DB :=
  { db with
    users := db.users.map fun x =>
      if x.userID == u.userID then
        { x with password := encrypt u.password newSalt, salt := newSalt,
                 resetUUID := "" }
      else x }

/-- Modelled from the spec: the Credential Store operation onboard(user)
(dao.OnBoardUser, whose code is not among the covered sources): idempotent
create-if-absent keyed by the onboarding identity field (the username); an
existing user with that identity is reused, otherwise the user is created
with no local password. -/
def dao.OnBoardUser (db : DB) (u : User) : DB × User :=
  match db.users.find? (fun x => x.username == u.username) with
  | some existing => (db, existing)
  | none =>
    let created : User := { u with userID := db.nextID }
    ({ users := db.users ++ [created], nextID := db.nextID + 1 }, created)

/-- Modelled from the spec: the Local Login credential check (auth.Login for
the database authenticator, whose code is not among the covered sources):
look up the user by principal (username or email); if absent there is no
authenticated user; otherwise recompute the salted hash of the secret and
compare against the stored hash, a mismatch again yielding no user. -/
def auth.Login (encrypt : String → String → String) (db : DB)
    (principal secret : String) : Option User :=
  match db.users.find?
      (fun u => u.username == principal || u.email == principal) with
  | none => none
  | some u => if encrypt secret u.salt == u.password then some u else none

/-- Local-password (database) authentication mode, the constant
common.DBAuth compared against by isUserResetable. -/
def DBAuth : String := "db_auth"

/-- isUserResetable (base.go 317-330): a nil user or a failing auth-mode read
is not resetable; under DB auth every user is resetable; under any other mode
only the bootstrap account with userID 1 is.  The configured auth mode
(config.AuthMode, an external collaborator) is the explicit authMode
parameter, an error value standing for a failing read. -/
def controllers.isUserResetable (authMode : Except String String)
    (u : Option User) : Bool :=
  match u with
  | none => false
  | some user =>
    match authMode with
    | Except.error _ => false
    | Except.ok mode =>
      if mode == DBAuth then true else user.userID == 1

/-- Login controller (base.go 63-83): authentication failure — an error from
auth.Login as well as a nil user — aborts 401 with an empty body; on success
the session receives the user's id, username and admin flag. -/
def controllers.Login (encrypt : String → String → String) (db : DB)
    (principal password : String) : Outcome :=
  match auth.Login encrypt db principal password with
  | none => Outcome.abort 401 ""
  | some u => Outcome.session u.userID u.username (u.hasAdminRole == 1)

/-- UserExists controller (base.go 91-110): copies the submitted value into
the username or email field of a zero user according to target (any other
target leaves the user zero), queries dao.UserExists and serves the boolean;
a store error aborts 500 with body "Internal error.". -/
def controllers.UserExists (db : DB) (target value : String) : Outcome :=
  let user : User :=
    if target == "username" then { User.empty with username := value }
    else if target == "email" then { User.empty with email := value }
    else User.empty
  match dao.UserExists db user target with
  | Except.error _ => Outcome.abort 500 "Internal error."
  | Except.ok exist => Outcome.json exist

/-- SendResetEmail controller (base.go 113-196).  External collaborators are
explicit inputs: validEmail stands for the address regexp of line 117 (whose
compilation cannot fail, the pattern being constant), uuid for
utils.GenerateRandomString (line 143), formatOk for the template,
external-endpoint and email-configuration steps of lines 150-179 (each of
whose failures aborts 500), sendOk for email_util.Send (line 182).  The
reset token is persisted by dao.UpdateUserResetUUID before any of the
formatting or dispatch steps run, and no path rolls it back. -/
def controllers.SendResetEmail (authMode : Except String String)
    (validEmail : String → Bool) (uuid : String) (formatOk sendOk : Bool)
    (db : DB) (email : String) : DB × Outcome :=
  if !(validEmail email) then (db, Outcome.abort 400 "invalid email")
  else
    match dao.GetUser db { User.empty with email := email } with
    | none => (db, Outcome.abort 404 "email_does_not_exist")
    | some u =>
      if !(controllers.isUserResetable authMode (some u)) then
        (db, Outcome.abort 403 "Forbidden")
      else
        let db2 :=
          dao.UpdateUserResetUUID db
            { User.empty with resetUUID := uuid, email := email }
        if !formatOk then (db2, Outcome.abort 500 "internal_error")
        else if !sendOk then (db2, Outcome.abort 500 "send_email_failed")
        else (db2, Outcome.ok)

/-- ResetPassword controller (base.go 199-235): blank token aborts 400; a
token matching no user aborts 400 with body "User does not exist"; an
ineligible user aborts 403; a blank new password aborts 400; otherwise the
store re-salts, re-hashes and clears the token. -/
def controllers.ResetPassword (authMode : Except String String)
    (encrypt : String → String → String) (newSalt : String) (db : DB)
    (resetUUID password : String) : DB × Outcome :=
  if resetUUID == "" then (db, Outcome.abort 400 "Reset uuid is blank.")
  else
    match dao.GetUser db { User.empty with resetUUID := resetUUID } with
    | none => (db, Outcome.abort 400 "User does not exist")
    | some user =>
      if !(controllers.isUserResetable authMode (some user)) then
        (db, Outcome.abort 403 "Forbidden")
      else if password != "" then
        (dao.ResetUserPassword (encrypt) newSalt db
          { user with password := password }, Outcome.ok)
      else (db, Outcome.abort 400 "password_is_required")

/-- Claims carried by the provider-issued access token that the covered code
reads: subject and issuer (jwtgo.StandardClaims). -/
structure Claims where
  subject : String
  issuer : String
deriving DecidableEq, Repr

/-- Provider access token as seen by the parse step: the signing algorithm
named by the token, whether its signature verifies under the configured HS256
key, and its claims. -/
structure AccessToken where
  alg : String
  sigValid : Bool
  claims : Claims
deriving DecidableEq, Repr

/-- JWT parse of base.go 284-290: the key function rejects every signing
method other than HS256, so jwtgo.ParseWithClaims fails for any such token;
with the method accepted, the signature is verified under the configured key,
a failure again making the parse return an error. -/
def parseWithClaims (t : AccessToken) : Except String Claims :=
  if t.alg != "HS256" then Except.error "only HS256 signing is supported"
  else if !t.sigValid then Except.error "signature is invalid"
  else Except.ok t.claims

/-- createUser (base.go 332-339): onboards the user through the store and
returns the onboarded record. -/
def controllers.createUser (db : DB) (u : User) : DB × User :=
  dao.OnBoardUser db u

/-- Oauth controller (base.go 239-315).  The steps up to and including the
authorization-code exchange (certificate pool, config load, oc.Exchange) are
the explicit exchange parameter; an error there aborts 500 before any state
changes (the modelled message is the exchange failure of line 280).  A parse
failure — wrong algorithm or bad signature — aborts 500 with body
"error parsing oauth response" (the spec error kind InvalidToken) before any
user is onboarded; on success the identity derived from the claims
(username the subject, email subject@issuer) is onboarded and the session
receives the onboarded user's id, username and admin flag. -/
def controllers.Oauth (exchange : Except String AccessToken) (db : DB) :
    DB × Outcome :=
  match exchange with
  | Except.error _ => (db, Outcome.abort 500 "error retrieving oauth token")
  | Except.ok tok =>
    match parseWithClaims tok with
    | Except.error _ => (db, Outcome.abort 500 "error parsing oauth response")
    | Except.ok c =>
      let derived : User :=
        { User.empty with username := c.subject,
                          email := c.subject ++ "@" ++ c.issuer }
      let res := controllers.createUser db derived
      (res.fst,
       Outcome.session res.snd.userID res.snd.username
         (res.snd.hasAdminRole == 1))

/-! Helper lemmas about the list-level store operations. -/

theorem find?_append_of_none {α : Type} (p : α → Bool) (l1 l2 : List α)
    (h : l1.find? p = none) : (l1 ++ l2).find? p = l2.find? p := by
  induction l1 with
  | nil => simp
  | cons a t ih =>
    cases hpa : p a with
    | true => simp [List.find?_cons, hpa] at h
    | false =>
      simp only [List.find?_cons, hpa] at h
      simpa [List.find?_cons, hpa] using ih h

theorem getUser_mem (db : DB) (q u : User)
    (h : dao.GetUser db q = some u) : u ∈ db.users :=
  List.mem_of_find?_eq_some h

theorem getUser_email_eq (db : DB) (q u : User)
    (h : dao.GetUser db q = some u) (hq : q.email ≠ "") :
    u.email = q.email := by
  have hp := List.find?_some h
  simp only [Bool.and_eq_true, Bool.or_eq_true, beq_iff_eq] at hp
  rcases hp with ⟨⟨-, h2⟩, -⟩
  rcases h2 with h2 | h2
  · exact absurd h2 hq
  · exact h2

/-- C9: a dao.UserExists query whose username, email and realname are all
empty fails with the invalid-query error rather than answering false. -/
theorem C9_exists_rejects_empty_query (db : DB) (user : User)
    (target : String) (h1 : user.username = "") (h2 : user.email = "")
    (h3 : user.realname = "") :
    dao.UserExists db user target =
      Except.error "user name, email, and realname are blank" := by
  simp [dao.UserExists, h1, h2, h3]

theorem C9_witness :
    dao.UserExists
        { users := [{ User.empty with username := "alice" }], nextID := 2 }
        User.empty "username" =
      Except.error "user name, email, and realname are blank" :=
  C9_exists_rejects_empty_query _ _ _ rfl rfl rfl

/-- C10: with a target other than username and email, the UserExists
controller leaves the lookup criteria entirely empty, so the store query
fails the empty-criteria check and the request always aborts 500 with body
"Internal error.", never serving a boolean. -/
theorem C10_unknown_target_always_errors (db : DB) (target value : String)
    (h1 : target ≠ "username") (h2 : target ≠ "email") :
    controllers.UserExists db target value =
      Outcome.abort 500 "Internal error." := by
  simp [controllers.UserExists, dao.UserExists, h1, h2, User.empty]

theorem C10_witness :
    controllers.UserExists
        { users := [{ User.empty with realname := "bob" }], nextID := 2 }
        "realname" "bob" =
      Outcome.abort 500 "Internal error." :=
  C10_unknown_target_always_errors _ _ _ (by decide) (by decide)

/-- C8: dao.Register persists exactly one new row, whose password column is
the salted hash of the supplied plaintext and whose salt column is the fresh
salt; whenever hashing actually changes the plaintext, no row written by the
call carries the plaintext password. -/
theorem C8_register_never_stores_plaintext
    (encrypt : String → String → String) (salt : String) (db : DB)
    (user : User) :
    (dao.Register encrypt salt db user).fst.users =
      db.users ++
        [{ user with userID := db.nextID,
                     password := encrypt user.password salt, salt := salt }] ∧
    (encrypt user.password salt ≠ user.password →
      ∀ w ∈ (dao.Register encrypt salt db user).fst.users,
        w ∉ db.users → w.password ≠ user.password) := by
  refine ⟨rfl, ?_⟩
  intro hne w hw hnot
  rcases List.mem_append.mp hw with h | h
  · exact absurd h hnot
  · simp only [List.mem_singleton] at h
    subst h
    simpa using hne

theorem C8_witness :
    ((fun p s => s ++ ":" ++ p) "pw" "s1" ≠ "pw") ∧
    (∀ w ∈ (dao.Register (fun p s => s ++ ":" ++ p) "s1"
          { users := [], nextID := 1 }
          { User.empty with username := "alice", password := "pw" }).fst.users,
      w ∉ ({ users := [], nextID := 1 } : DB).users →
      w.password ≠
        ({ User.empty with username := "alice", password := "pw" } : User).password) :=
  ⟨by decide,
   (C8_register_never_stores_plaintext (fun p s => s ++ ":" ++ p) "s1"
      { users := [], nextID := 1 }
      { User.empty with username := "alice", password := "pw" }).2 (by decide)⟩

/-- C1: a provider access token whose signing algorithm is not the configured
HS256 is rejected at the parse step — the abort of status 500 and body
"error parsing oauth response", the spec's InvalidToken kind — with the user
store unchanged (no user created or onboarded) and no session established. -/
theorem C1_oauth_rejects_wrong_algorithm (db : DB) (tok : AccessToken)
    (halg : tok.alg ≠ "HS256") :
    controllers.Oauth (Except.ok tok) db =
      (db, Outcome.abort 500 "error parsing oauth response") := by
  have h : (tok.alg != "HS256") = true := by simpa [bne_iff_ne] using halg
  simp [controllers.Oauth, parseWithClaims, h]

theorem C1_witness :
    controllers.Oauth
        (Except.ok { alg := "none", sigValid := true,
                     claims := { subject := "sub", issuer := "idp" } })
        { users := [], nextID := 1 } =
      ({ users := [], nextID := 1 },
       Outcome.abort 500 "error parsing oauth response") :=
  C1_oauth_rejects_wrong_algorithm _ _ (by decide)

/-- C4: at the syntactically valid address ghost@example.com, matched by no
user of the store, SendResetEmail aborts with status 404 and the
caller-visible body "email_does_not_exist" — a message that reveals the
address is unregistered, where the specification requires the caller-visible
message to stay generic to prevent account enumeration. -/
theorem C4_reset_request_enumeration_leak :
    controllers.SendResetEmail (Except.ok "db_auth") (fun _ => true) "t1"
        true true { users := [], nextID := 1 } "ghost@example.com" =
      ({ users := [], nextID := 1 },
       Outcome.abort 404 "email_does_not_exist") := by
  decide

/-- C2: the login controller aborts 401 with an empty body both when no user
matches the principal and when a matching user's stored hash does not verify
the secret — the caller-visible outcome is identical in the two cases — and
on a successful verification the session receives the user's id, username
and admin flag. -/
theorem C2_login_uniform_unauthorized (encrypt : String → String → String)
    (db : DB) (principal secret : String) :
    ((∀ u ∈ db.users, u.username ≠ principal ∧ u.email ≠ principal) →
      controllers.Login encrypt db principal secret = Outcome.abort 401 "") ∧
    (∀ u, db.users.find?
          (fun x => x.username == principal || x.email == principal) = some u →
      encrypt secret u.salt ≠ u.password →
      controllers.Login encrypt db principal secret = Outcome.abort 401 "") ∧
    (∀ u, db.users.find?
          (fun x => x.username == principal || x.email == principal) = some u →
      encrypt secret u.salt = u.password →
      controllers.Login encrypt db principal secret =
        Outcome.session u.userID u.username (u.hasAdminRole == 1)) := by
  refine ⟨?_, ?_, ?_⟩
  · intro h
    have hnone : db.users.find?
        (fun x => x.username == principal || x.email == principal) = none := by
      rw [List.find?_eq_none]
      intro x hx
      rcases h x hx with ⟨h1, h2⟩
      simp [h1, h2]
    simp [controllers.Login, auth.Login, hnone]
  · intro u hu hne
    have hfalse : (encrypt secret u.salt == u.password) = false :=
      beq_eq_false_iff_ne.mpr hne
    simp [controllers.Login, auth.Login, hu, hfalse]
  · intro u hu heq
    simp [controllers.Login, auth.Login, hu, heq]

theorem C2_witness :
    (controllers.Login (fun p s => s ++ ":" ++ p)
        { users := [{ User.empty with
                        userID := 7, username := "alice", email := "a@x",
                        salt := "s1", password := "s1:pw",
                        hasAdminRole := 1 }],
          nextID := 8 }
        "ghost" "pw" = Outcome.abort 401 "") ∧
    (controllers.Login (fun p s => s ++ ":" ++ p)
        { users := [{ User.empty with
                        userID := 7, username := "alice", email := "a@x",
                        salt := "s1", password := "s1:pw",
                        hasAdminRole := 1 }],
          nextID := 8 }
        "alice" "bad" = Outcome.abort 401 "") ∧
    (controllers.Login (fun p s => s ++ ":" ++ p)
        { users := [{ User.empty with
                        userID := 7, username := "alice", email := "a@x",
                        salt := "s1", password := "s1:pw",
                        hasAdminRole := 1 }],
          nextID := 8 }
        "alice" "pw" =
      Outcome.session 7 "alice"
        (({ User.empty with
              userID := 7, username := "alice", email := "a@x",
              salt := "s1", password := "s1:pw",
              hasAdminRole := 1 } : User).hasAdminRole == 1)) :=
  ⟨(C2_login_uniform_unauthorized (fun p s => s ++ ":" ++ p) _ "ghost" "pw").1
      (by decide),
   (C2_login_uniform_unauthorized (fun p s => s ++ ":" ++ p) _ "alice" "bad").2.1
      { User.empty with
          userID := 7, username := "alice", email := "a@x",
          salt := "s1", password := "s1:pw", hasAdminRole := 1 }
      (by decide) (by decide),
   (C2_login_uniform_unauthorized (fun p s => s ++ ":" ++ p) _ "alice" "pw").2.2
      { User.empty with
          userID := 7, username := "alice", email := "a@x",
          salt := "s1", password := "s1:pw", hasAdminRole := 1 }
      (by decide) (by decide)⟩

/-- C5: for a present user and a readable auth mode, isUserResetable returns
true exactly when the mode is DB auth or the user is the bootstrap account
with id 1; an ineligible user makes the reset request abort 403 Forbidden
with the store unchanged (no token generated or stored), and makes the
redeem path abort 403 Forbidden with the store unchanged — the same
eligibility check applied at both ends. -/
theorem C5_reset_eligibility :
    (∀ (mode : String) (u : User),
      controllers.isUserResetable (Except.ok mode) (some u) = true ↔
        (mode = DBAuth ∨ u.userID = 1)) ∧
    (∀ (authMode : Except String String) (validEmail : String → Bool)
        (uuid : String) (formatOk sendOk : Bool) (db : DB) (email : String)
        (u : User),
      validEmail email = true →
      dao.GetUser db { User.empty with email := email } = some u →
      controllers.isUserResetable authMode (some u) = false →
      controllers.SendResetEmail authMode validEmail uuid formatOk sendOk
          db email = (db, Outcome.abort 403 "Forbidden")) ∧
    (∀ (authMode : Except String String)
        (encrypt : String → String → String) (newSalt : String) (db : DB)
        (tok pw : String) (u : User),
      tok ≠ "" →
      dao.GetUser db { User.empty with resetUUID := tok } = some u →
      controllers.isUserResetable authMode (some u) = false →
      controllers.ResetPassword authMode encrypt newSalt db tok pw =
        (db, Outcome.abort 403 "Forbidden")) := by
  refine ⟨?_, ?_, ?_⟩
  · intro mode u
    by_cases hm : mode = DBAuth
    · simp [controllers.isUserResetable, hm]
    · simp [controllers.isUserResetable, hm]
  · intro authMode validEmail uuid formatOk sendOk db email u hv hu hr
    simp [controllers.SendResetEmail, hv, hu, hr]
  · intro authMode encrypt newSalt db tok pw u hne hu hr
    simp [controllers.ResetPassword, hne, hu, hr]

theorem C5_witness :
    (controllers.isUserResetable (Except.ok "ldap_auth")
        (some { User.empty with
                  userID := 2, email := "b@x", resetUUID := "r1" }) = true ↔
      ("ldap_auth" = DBAuth ∨
        ({ User.empty with
             userID := 2, email := "b@x",
             resetUUID := "r1" } : User).userID = 1)) ∧
    (controllers.SendResetEmail (Except.ok "ldap_auth") (fun _ => true) "t1"
        true true
        { users := [{ User.empty with
                        userID := 2, email := "b@x", resetUUID := "r1" }],
          nextID := 3 }
        "b@x" =
      ({ users := [{ User.empty with
                       userID := 2, email := "b@x", resetUUID := "r1" }],
         nextID := 3 },
       Outcome.abort 403 "Forbidden")) ∧
    (controllers.ResetPassword (Except.ok "ldap_auth")
        (fun p s => s ++ ":" ++ p) "s2"
        { users := [{ User.empty with
                        userID := 2, email := "b@x", resetUUID := "r1" }],
          nextID := 3 }
        "r1" "npw" =
      ({ users := [{ User.empty with
                       userID := 2, email := "b@x", resetUUID := "r1" }],
         nextID := 3 },
       Outcome.abort 403 "Forbidden")) :=
  ⟨C5_reset_eligibility.1 "ldap_auth" _,
   C5_reset_eligibility.2.1 (Except.ok "ldap_auth") (fun _ => true) "t1"
      true true _ "b@x"
      { User.empty with userID := 2, email := "b@x", resetUUID := "r1" }
      rfl (by decide) (by decide),
   C5_reset_eligibility.2.2 (Except.ok "ldap_auth") (fun p s => s ++ ":" ++ p)
      "s2" _ "r1" "npw"
      { User.empty with userID := 2, email := "b@x", resetUUID := "r1" }
      (by decide) (by decide) (by decide)⟩

/-- C3 counterexample: redeeming the non-empty token zzz, which matches no
user of the concrete store, aborts with status 400 and body
"User does not exist" — the BadRequest abort of base.go line 215 — and in
particular not with status 404, the NotFound status this same code uses for
a missing user elsewhere (base.go line 135), refuting the claim that the
failure is NotFound. -/
theorem C3_counterexample :
    ((controllers.ResetPassword (Except.ok "db_auth")
        (fun p s => s ++ ":" ++ p) "s2"
        { users := [{ User.empty with
                        userID := 5, username := "bob", email := "b@x",
                        resetUUID := "t1" }],
          nextID := 6 }
        "zzz" "npw").snd = Outcome.abort 400 "User does not exist") ∧
    (Outcome.statusOf (controllers.ResetPassword (Except.ok "db_auth")
        (fun p s => s ++ ":" ++ p) "s2"
        { users := [{ User.empty with
                        userID := 5, username := "bob", email := "b@x",
                        resetUUID := "t1" }],
          nextID := 6 }
        "zzz" "npw").snd ≠ some 404) := by
  decide

/-- C3 amended: a redeem with a non-empty token matching no user fails with
BadRequest — status 400, body "User does not exist" — rather than NotFound;
consequently, after a successful redemption of a token held by exactly one
user, redeeming the same token again fails the same way, because the
successful redemption cleared it from the store. -/
theorem C3_amended_second_redeem_fails (authMode : Except String String)
    (encrypt : String → String → String) (salt1 salt2 : String) (db : DB)
    (tok pw1 pw2 : String) (hne : tok ≠ "") :
    (dao.GetUser db { User.empty with resetUUID := tok } = none →
      controllers.ResetPassword authMode encrypt salt1 db tok pw1 =
        (db, Outcome.abort 400 "User does not exist")) ∧
    (∀ u, dao.GetUser db { User.empty with resetUUID := tok } = some u →
      controllers.isUserResetable authMode (some u) = true →
      pw1 ≠ "" →
      (∀ w ∈ db.users, w.resetUUID = tok → w.userID = u.userID) →
      (controllers.ResetPassword authMode encrypt salt1 db tok pw1).snd =
          Outcome.ok ∧
      controllers.ResetPassword authMode encrypt salt2
          (controllers.ResetPassword authMode encrypt salt1 db tok pw1).fst
          tok pw2 =
        ((controllers.ResetPassword authMode encrypt salt1 db tok pw1).fst,
         Outcome.abort 400 "User does not exist")) := by
  constructor
  · intro hnone
    simp [controllers.ResetPassword, hne, hnone]
  · intro u hu hr hpw huniq
    have hne' : "" ≠ tok := Ne.symm hne
    have hfst : controllers.ResetPassword authMode encrypt salt1 db tok pw1 =
        (dao.ResetUserPassword encrypt salt1 db { u with password := pw1 },
         Outcome.ok) := by
      simp [controllers.ResetPassword, hne, hu, hr, hpw]
    have hnone2 : dao.GetUser
        (dao.ResetUserPassword encrypt salt1 db { u with password := pw1 })
        { User.empty with resetUUID := tok } = none := by
      rw [dao.GetUser, List.find?_eq_none]
      intro y hy
      simp only [dao.ResetUserPassword, List.mem_map] at hy
      obtain ⟨x, hx, rfl⟩ := hy
      by_cases hid : x.userID = u.userID
      · simp [hid, hne, hne']
      · have hxr : x.resetUUID ≠ tok := fun hEq => hid (huniq x hx hEq)
        simp [hid, hne, hxr]
    rw [hfst]
    refine ⟨rfl, ?_⟩
    simp [controllers.ResetPassword, hne, hnone2]

theorem C3_witness :
    (controllers.ResetPassword (Except.ok "db_auth")
        (fun p s => s ++ ":" ++ p) "s2"
        { users := [{ User.empty with
                        userID := 5, username := "bob", email := "b@x",
                        resetUUID := "t1" }],
          nextID := 6 }
        "zzz" "npw" =
      ({ users := [{ User.empty with
                       userID := 5, username := "bob", email := "b@x",
                       resetUUID := "t1" }],
         nextID := 6 },
       Outcome.abort 400 "User does not exist")) ∧
    ((controllers.ResetPassword (Except.ok "db_auth")
        (fun p s => s ++ ":" ++ p) "s2"
        { users := [{ User.empty with
                        userID := 5, username := "bob", email := "b@x",
                        resetUUID := "t1" }],
          nextID := 6 }
        "t1" "npw").snd = Outcome.ok ∧
      controllers.ResetPassword (Except.ok "db_auth")
          (fun p s => s ++ ":" ++ p) "s3"
          (controllers.ResetPassword (Except.ok "db_auth")
            (fun p s => s ++ ":" ++ p) "s2"
            { users := [{ User.empty with
                            userID := 5, username := "bob", email := "b@x",
                            resetUUID := "t1" }],
              nextID := 6 }
            "t1" "npw").fst
          "t1" "again" =
        ((controllers.ResetPassword (Except.ok "db_auth")
            (fun p s => s ++ ":" ++ p) "s2"
            { users := [{ User.empty with
                            userID := 5, username := "bob", email := "b@x",
                            resetUUID := "t1" }],
              nextID := 6 }
            "t1" "npw").fst,
         Outcome.abort 400 "User does not exist")) :=
  ⟨(C3_amended_second_redeem_fails (Except.ok "db_auth")
      (fun p s => s ++ ":" ++ p) "s2" "s3" _ "zzz" "npw" "x" (by decide)).1
        (by decide),
   (C3_amended_second_redeem_fails (Except.ok "db_auth")
      (fun p s => s ++ ":" ++ p) "s2" "s3" _ "t1" "npw" "again" (by decide)).2
      { User.empty with
          userID := 5, username := "bob", email := "b@x", resetUUID := "t1" }
      (by decide) (by decide) (by decide) (by decide)⟩

theorem onBoardUser_idem (db : DB) (u : User) :
    dao.OnBoardUser (dao.OnBoardUser db u).fst u =
      ((dao.OnBoardUser db u).fst, (dao.OnBoardUser db u).snd) := by
  cases hfind : db.users.find? (fun x => x.username == u.username) with
  | some e => simp [dao.OnBoardUser, hfind]
  | none =>
    have h2 : (db.users ++ [{ u with userID := db.nextID }]).find?
        (fun x => x.username == u.username) =
          some { u with userID := db.nextID } := by
      rw [find?_append_of_none _ _ _ hfind]
      simp
    simp [dao.OnBoardUser, hfind, h2]

/-- C6: a validly signed HS256 token makes the OAuth controller onboard the
identity derived from the claims — username the subject, email the subject
followed by an at sign and the issuer: when a user with that username
already exists it is reused and the store is unchanged, otherwise exactly
the one derived user is appended; replaying the same token against the
resulting store changes it no further (no duplicate user). -/
theorem C6_oauth_onboarding_idempotent (db : DB) (tok : AccessToken)
    (halg : tok.alg = "HS256") (hsig : tok.sigValid = true) :
    (∀ e, db.users.find? (fun x => x.username == tok.claims.subject) = some e →
      controllers.Oauth (Except.ok tok) db =
        (db, Outcome.session e.userID e.username (e.hasAdminRole == 1))) ∧
    (db.users.find? (fun x => x.username == tok.claims.subject) = none →
      controllers.Oauth (Except.ok tok) db =
        ({ users := db.users ++
             [{ User.empty with
                  username := tok.claims.subject,
                  email := tok.claims.subject ++ "@" ++ tok.claims.issuer,
                  userID := db.nextID }],
           nextID := db.nextID + 1 },
         Outcome.session db.nextID tok.claims.subject false)) ∧
    ((controllers.Oauth (Except.ok tok)
        (controllers.Oauth (Except.ok tok) db).fst).fst =
      (controllers.Oauth (Except.ok tok) db).fst) := by
  have hparse : parseWithClaims tok = Except.ok tok.claims := by
    simp [parseWithClaims, halg, hsig]
  refine ⟨?_, ?_, ?_⟩
  · intro e he
    simp [controllers.Oauth, hparse, controllers.createUser, dao.OnBoardUser,
      he]
  · intro hn
    simp [controllers.Oauth, hparse, controllers.createUser, dao.OnBoardUser,
      hn, User.empty]
  · simp only [controllers.Oauth, hparse, controllers.createUser]
    exact congrArg Prod.fst (onBoardUser_idem db _)

theorem C6_witness :
    (controllers.Oauth
        (Except.ok { alg := "HS256", sigValid := true,
                     claims := { subject := "sub", issuer := "idp" } })
        { users := [], nextID := 1 } =
      ({ users := [{ User.empty with
                       username := "sub", email := "sub" ++ "@" ++ "idp",
                       userID := 1 }],
         nextID := 2 },
       Outcome.session 1 "sub" false)) ∧
    ((controllers.Oauth
        (Except.ok { alg := "HS256", sigValid := true,
                     claims := { subject := "sub", issuer := "idp" } })
        (controllers.Oauth
          (Except.ok { alg := "HS256", sigValid := true,
                       claims := { subject := "sub", issuer := "idp" } })
          { users := [], nextID := 1 }).fst).fst =
      (controllers.Oauth
        (Except.ok { alg := "HS256", sigValid := true,
                     claims := { subject := "sub", issuer := "idp" } })
        { users := [], nextID := 1 }).fst) :=
  ⟨(C6_oauth_onboarding_idempotent { users := [], nextID := 1 }
      { alg := "HS256", sigValid := true,
        claims := { subject := "sub", issuer := "idp" } }
      rfl rfl).2.1 rfl,
   (C6_oauth_onboarding_idempotent { users := [], nextID := 1 }
      { alg := "HS256", sigValid := true,
        claims := { subject := "sub", issuer := "idp" } }
      rfl rfl).2.2⟩

/-- C7: with a valid address resolving to an eligible user, the reset token
is persisted as the user's resetUUID by the store update that precedes all
formatting and dispatch steps; when dispatch then fails, the returned store
is exactly the persisted one — the token is not rolled back and the updated
user still carries it — and the failure surfaces to the caller as the abort
of status 500 and body "send_email_failed". -/
theorem C7_token_persisted_before_dispatch (authMode : Except String String)
    (validEmail : String → Bool) (uuid : String) (db : DB) (email : String)
    (u : User) (hv : validEmail email = true) (hne : email ≠ "")
    (hu : dao.GetUser db { User.empty with email := email } = some u)
    (hr : controllers.isUserResetable authMode (some u) = true) :
    controllers.SendResetEmail authMode validEmail uuid true false db email =
      (dao.UpdateUserResetUUID db
         { User.empty with resetUUID := uuid, email := email },
       Outcome.abort 500 "send_email_failed") ∧
    { u with resetUUID := uuid } ∈
      (dao.UpdateUserResetUUID db
         { User.empty with resetUUID := uuid, email := email }).users := by
  constructor
  · simp [controllers.SendResetEmail, hv, hu, hr]
  · have hmem : u ∈ db.users := getUser_mem db _ u hu
    have hemail : u.email = email := by
      simpa using getUser_email_eq db _ u hu (by simpa using hne)
    simp only [dao.UpdateUserResetUUID, List.mem_map]
    exact ⟨u, hmem, by simp [hemail]⟩

theorem C7_witness :
    (controllers.SendResetEmail (Except.ok "db_auth") (fun _ => true) "t9"
        true false
        { users := [{ User.empty with
                        userID := 5, username := "bob", email := "b@x" }],
          nextID := 6 }
        "b@x" =
      (dao.UpdateUserResetUUID
         { users := [{ User.empty with
                         userID := 5, username := "bob", email := "b@x" }],
           nextID := 6 }
         { User.empty with resetUUID := "t9", email := "b@x" },
       Outcome.abort 500 "send_email_failed")) ∧
    ({ ({ User.empty with
            userID := 5, username := "bob", email := "b@x" } : User) with
         resetUUID := "t9" } ∈
      (dao.UpdateUserResetUUID
         { users := [{ User.empty with
                         userID := 5, username := "bob", email := "b@x" }],
           nextID := 6 }
         { User.empty with resetUUID := "t9", email := "b@x" }).users) :=
  C7_token_persisted_before_dispatch (Except.ok "db_auth") (fun _ => true)
    "t9" _ "b@x"
    { User.empty with userID := 5, username := "bob", email := "b@x" }
    rfl (by decide) (by decide) (by decide)
